import Mathlib

/-!
Shallow embedding of `pinia-api-client`:
* the HTTP wrapper (`utils/apiClient.js`: `initApiClient`, `handleError`,
  `request`, the verb methods and `postFile`), and
* the generic Pinia store factory (`stores/createGenericStore.ts`:
  `createGenericStore` with its five base actions).

JavaScript runtime values that flow through the error paths (thrown server
bodies, `String(err)` coercion) are modelled by a small value universe
`JsValue`: scalars and flat string-keyed objects, which covers every value
the code in question constructs or inspects.  Asynchronous transport calls
are modelled by passing each action the outcome of the HTTP call it awaits
(an oracle argument); actions additionally return the list of HTTP requests
they issued, so that "no refresh call is made" is a provable statement.
-/

namespace PiniaApiClient

/-- Scalar JavaScript values. -/
inductive JsPrim where
  | null
  | boolean (b : Bool)
  | num (n : Int)
  | str (s : String)
deriving DecidableEq, Repr

/-- JavaScript values in play: scalars and flat string-keyed objects
(enough to represent request params, payloads and server error bodies). -/
inductive JsValue where
  | prim (p : JsPrim)
  | object (fields : List (String × JsPrim))
deriving DecidableEq, Repr

/-- The empty object literal `{}` (default params/data of the verb methods). -/
def JsValue.empty : JsValue := .object []

/-- JavaScript `String(v)` coercion on the modelled values:
`String(null) = "null"`, numbers and booleans print themselves, and a plain
object stringifies to `"[object Object]"`. -/
def jsStringOfPrim : JsPrim → String
  | .null => "null"
  | .boolean true => "true"
  | .boolean false => "false"
  | .num n => toString n
  | .str s => s

def jsStringOf : JsValue → String
  | .prim p => jsStringOfPrim p
  | .object _ => "[object Object]"

/-- A value caught by a `catch` block: either a JS `Error` instance
(identified by its message) or a raw non-`Error` value such as a thrown
server response body. -/
inductive Caught where
  | errorInst (message : String)
  | rawValue (v : JsValue)
deriving DecidableEq, Repr

/-- `String(err)` on a caught value; `String(new Error(m))` is `"Error: m"`. -/
def jsStringOfCaught : Caught → String
  | .errorInst m => "Error: " ++ m
  | .rawValue v => jsStringOf v

/-- The expression `err instanceof Error ? err : new Error(String(err))`
appearing in the catch block of every base action of
`createGenericStore` (src/src/pinia.ts lines 106, 118, 132, 147, 160). -/
def normalizeCaught : Caught → Caught
  | .errorInst m => .errorInst m
  | .rawValue v => .errorInst (jsStringOf v)

/-! ### HTTP wrapper (`utils/apiClient.js`) -/

/-- Shape of the value rejected by the transport (axios), as inspected by
`handleError`: it either carries `.response` (server answered with a non-2xx
status: status code, headers, body `data`), or carries `.request` but no
response (request sent, nothing came back), or is a plain error with only a
`.message` (request setup failed). -/
inductive ErrShape where
  | withResponse (status : Nat) (headers : List (String × String)) (data : JsValue)
  | withRequest (message : String)
  | setup (message : String)
deriving DecidableEq, Repr

/-- `handleError` (src/unnamed/part_000 lines 74-93).  Console logging is
side-effect only and not modelled.  The function always throws, so it is
modelled as returning the thrown value; the `throw err` after the
`handleError(err)` call sites is unreachable because `handleError` never
returns. -/
def handleError : ErrShape → Caught
  | .withResponse _ _ data => .rawValue data
  | .withRequest _ => .errorInst "No response from server"
  | .setup message => .errorInst ("Request failed: " ++ message)

/-- Outcome of one transport (`axiosInstance.request` / `.post`) call. -/
inductive TransportOutcome where
  | ok (data : JsValue)
  | err (e : ErrShape)
deriving DecidableEq, Repr

/-- One request handed to the transport, as assembled by the wrapper:
method, url, and the payload routed either to `params` (GET/DELETE) or to
`data` (POST/PUT), plus per-request headers (used by `postFile`). -/
structure TransportReq where
  method : String
  url : String
  params : Option JsValue
  data : Option JsValue
  headers : List (String × String)
deriving DecidableEq, Repr

/-- What a wrapper call produces: the response `data` on success, or a
thrown classified value on failure. -/
inductive WrapperOutcome where
  | ok (data : JsValue)
  | thrown (e : Caught)
deriving DecidableEq, Repr

def notInitializedMsg : String :=
  "apiClient not initialized. Call initApiClient(config) first."

/-- Interceptor functions are identified opaquely by a number; a registered
interceptor pairs the success handler with the (optional) error handler
passed to the same `use` call. -/
abbrev Fn := Nat

/-- The single/array union accepted for each interceptor config field. -/
inductive FnOrArray where
  | none
  | single (f : Fn)
  | array (fs : List Fn)
deriving DecidableEq, Repr

/-- `ensureArray` (src/unnamed/part_000 lines 21-24): `undefined` becomes
`[]`, a single function is wrapped, an array is kept (an empty array is
truthy in JS and is returned unchanged by the `Array.isArray` branch). -/
def ensureArray : FnOrArray → List Fn
  | .none => []
  | .single f => [f]
  | .array fs => fs

/-- `ApiClientConfig`: mandatory `baseURL`, four optional interceptor
fields, and the rest of the axios config (`restConfig` after destructuring)
of which the fields the wrapper itself touches — `headers` and
`withCredentials` — are modelled explicitly and the remainder opaquely. -/
structure ApiClientConfig where
  baseURL : String
  requestInterceptors : FnOrArray := .none
  requestInterceptorErrors : FnOrArray := .none
  responseInterceptors : FnOrArray := .none
  responseInterceptorErrors : FnOrArray := .none
  headers : List (String × String) := []
  withCredentials : Option Bool := Option.none
  otherFields : List (String × String) := []
deriving DecidableEq, Repr

/-- JS object spread `{...base, ...extra}` on string-keyed maps with unique
keys: keys of `extra` win on collision, new keys of `extra` are appended. -/
def mergeHeaders (base extra : List (String × String)) : List (String × String) :=
  base.map (fun kv => (kv.1, (((extra.find? (fun p => p.1 = kv.1)).map Prod.snd).getD kv.2)))
    ++ extra.filter (fun p => base.all (fun q => q.1 ≠ p.1))

/-- The axios instance as configured by `initApiClient`: creation config
plus the interceptor registrations performed on it. -/
structure AxiosInstance where
  baseURL : String
  withCredentials : Bool
  headers : List (String × String)
  otherFields : List (String × String)
  reqInterceptors : List (Fn × Option Fn)
  resInterceptors : List (Fn × Option Fn)
deriving DecidableEq, Repr

/-- The `axios.create({...})` call plus the two `forEach` registration
loops of `initApiClient` (src/unnamed/part_000 lines 37-70): `baseURL` and
`withCredentials: true` first, then `...restConfig` (so a caller-supplied
`withCredentials` overrides the default), then `headers:` defined after the
spread, merging `Content-Type: application/json` with the caller's headers
(caller wins on collision).  Each success interceptor is registered in
order, every one paired with the FIRST supplied error handler of its
direction (`reqErrorInterceptors[0]`, `undefined` if none). -/
def createInstance (cfg : ApiClientConfig) : AxiosInstance :=
  { baseURL := cfg.baseURL
    withCredentials := cfg.withCredentials.getD true
    headers := mergeHeaders [("Content-Type", "application/json")] cfg.headers
    otherFields := cfg.otherFields
    reqInterceptors := (ensureArray cfg.requestInterceptors).map
      (fun f => (f, (ensureArray cfg.requestInterceptorErrors).head?))
    resInterceptors := (ensureArray cfg.responseInterceptors).map
      (fun f => (f, (ensureArray cfg.responseInterceptorErrors).head?)) }

/-- `initApiClient` (src/unnamed/part_000 lines 27-71): reassigns the
module-level `axiosInstance` to a fresh `axios.create(...)` result built
from `config` alone; the previous instance (if any) is discarded. -/
def initApiClient (cfg : ApiClientConfig) (_prev : Option AxiosInstance) :
    Option AxiosInstance :=
  some (createInstance cfg)

/-- `request` (src/unnamed/part_000 lines 97-120).  Returns the wrapper
outcome together with the list of transport requests actually issued: when
`axiosInstance` is undefined it throws before touching the transport (empty
list).  For `get`/`delete` the payload goes into `config.params`, otherwise
into `config.data`.  On transport failure the thrown value is
`handleError err` (`handleError` never returns, so the trailing
`throw err` in the source is dead code). -/
def request (inst : Option AxiosInstance) (method url : String)
    (dataOrParams : JsValue) (outcome : TransportOutcome) :
    WrapperOutcome × List TransportReq :=
  match inst with
  | Option.none => (.thrown (.errorInst notInitializedMsg), [])
  | some _ =>
    let req : TransportReq :=
      if method = "get" ∨ method = "delete" then
        { method := method, url := url, params := some dataOrParams,
          data := Option.none, headers := [] }
      else
        { method := method, url := url, params := Option.none,
          data := some dataOrParams, headers := [] }
    match outcome with
    | .ok d => (.ok d, [req])
    | .err e => (.thrown (handleError e), [req])

/-- `apiClient.get` (the verb layer defaults the payload to `{}`; the
default is applied at each call site in this embedding). -/
def apiGet (inst : Option AxiosInstance) (url : String)
    (params : JsValue) (outcome : TransportOutcome) :
    WrapperOutcome × List TransportReq :=
  request inst "get" url params outcome

/-- `apiClient.post`. -/
def apiPost (inst : Option AxiosInstance) (url : String)
    (data : JsValue) (outcome : TransportOutcome) :
    WrapperOutcome × List TransportReq :=
  request inst "post" url data outcome

/-- `apiClient.put`. -/
def apiPut (inst : Option AxiosInstance) (url : String)
    (data : JsValue) (outcome : TransportOutcome) :
    WrapperOutcome × List TransportReq :=
  request inst "put" url data outcome

/-- `apiClient.delete`. -/
def apiDelete (inst : Option AxiosInstance) (url : String)
    (params : JsValue) (outcome : TransportOutcome) :
    WrapperOutcome × List TransportReq :=
  request inst "delete" url params outcome

/-- `apiClient.postFile` (src/unnamed/part_000 lines 138-153): checks
initialization itself, then issues a direct `axiosInstance.post` with a
forced multipart header; error classification is the same `handleError`. -/
def postFile (inst : Option AxiosInstance) (url : String) (formData : JsValue)
    (outcome : TransportOutcome) : WrapperOutcome × List TransportReq :=
  match inst with
  | Option.none => (.thrown (.errorInst notInitializedMsg), [])
  | some _ =>
    let req : TransportReq :=
      { method := "post", url := url, params := Option.none,
        data := some formData,
        headers := [("Content-Type", "multipart/form-data")] }
    match outcome with
    | .ok d => (.ok d, [req])
    | .err e => (.thrown (handleError e), [req])

/-! ### Generic store factory (`stores/createGenericStore.ts`) -/

/-- Pagination descriptor `Meta` (src/src/pinia.ts lines 5-9). -/
structure Meta where
  currentPage : Int
  totalPages : Int
  totalCount : Int
deriving DecidableEq, Repr

/-- `GenericState<T>` (src/src/pinia.ts lines 11-17).  The TS type annotates
`error : Error | null`, but the values actually stored come from the catch
blocks, so the field is modelled as an optional `Caught`. -/
structure GenericState (T : Type) where
  items : List T
  item : Option T
  loading : Bool
  error : Option Caught
  meta : Meta
deriving DecidableEq, Repr

/-- The base state initializer of `storeOptions.state`
(src/src/pinia.ts lines 65-76), before extension state is spread in. -/
def initialState (T : Type) : GenericState T :=
  { items := [], item := Option.none, loading := false,
    error := Option.none, meta := { currentPage := 1, totalPages := 1, totalCount := 0 } }

/-- Outcome of one awaited `apiClient` call as seen by a store action: the
typed response data, or the value the wrapper threw. -/
inductive ApiResult (α : Type) where
  | ok (data : α)
  | err (e : Caught)
deriving DecidableEq, Repr

/-- The inline `ApiResponse` interface of `fetchAll`
(src/src/pinia.ts lines 92-97): every field optional. -/
structure ListResponse (T : Type) where
  objects : Option (List T) := Option.none
  current_page : Option Int := Option.none
  num_pages : Option Int := Option.none
  total_count : Option Int := Option.none
deriving DecidableEq, Repr

/-- One HTTP request issued by a base action through `apiClient`. -/
inductive ApiCall where
  | get (url : String) (params : JsValue)
  | post (url : String)
  | put (url : String)
  | delete (url : String)
deriving DecidableEq, Repr

/-- What running a base action yields in the sequential model: the final
store state, the action's resolved value, and the HTTP requests it issued
(in order).  No base action's promise ever rejects: every action wraps its
single awaited failure point in `try/catch`, and the catch/finally bodies
are plain assignments. -/
structure ActionOutcome (T ρ : Type) where
  state : GenericState T
  result : ρ
  calls : List ApiCall
deriving DecidableEq, Repr

/-- The common prologue of every base action:
`this.loading = true; this.error = null`. -/
def startAction {T : Type} (s : GenericState T) : GenericState T :=
  { s with loading := true, error := Option.none }

/-- The common `finally` block of every base action: `this.loading = false`. -/
def finishAction {T : Type} (s : GenericState T) : GenericState T :=
  { s with loading := false }

/-- The `try`/`catch` body of `fetchAll` (src/src/pinia.ts lines 90-106):
on success, destructure with defaults `objects = []`, `current_page = 1`,
`num_pages = 1`, replace `items` with `objects` and `meta` with
`{currentPage, totalPages, totalCount: total_count ?? objects.length}`;
on failure, store the normalized caught value in `error`. -/
def fetchAllTry {T : Type} (res : ApiResult (ListResponse T)) (s : GenericState T) :
    GenericState T :=
  match res with
  | .ok r =>
    let objects := r.objects.getD []
    let current_page := r.current_page.getD 1
    let num_pages := r.num_pages.getD 1
    { s with items := objects,
             meta := { currentPage := current_page, totalPages := num_pages,
                       totalCount := r.total_count.getD objects.length } }
  | .err e => { s with error := some (normalizeCaught e) }

/-- `fetchAll(params = {})` (src/src/pinia.ts lines 86-110): prologue,
one `apiClient.get(endpoint, params)` whose outcome is `res`, try/catch
body, `finally` epilogue.  Resolves `void`. -/
def fetchAll {T : Type} (endpoint : String) (params : JsValue)
    (res : ApiResult (ListResponse T)) (s : GenericState T) : ActionOutcome T Unit :=
  { state := finishAction (fetchAllTry res (startAction s))
    result := ()
    calls := [ApiCall.get endpoint params] }

/-- `fetchOne(id)` (src/src/pinia.ts lines 111-122): one
`apiClient.get(endpoint/id)`; on success `item` is replaced with the
response body, on failure `error` is set to the normalized caught value. -/
def fetchOne {T : Type} (endpoint id : String) (res : ApiResult T)
    (s : GenericState T) : ActionOutcome T Unit :=
  let s1 := startAction s
  let s2 := match res with
    | .ok data => { s1 with item := some data }
    | .err e => { s1 with error := some (normalizeCaught e) }
  { state := finishAction s2, result := (), calls := [ApiCall.get (endpoint ++ "/" ++ id) JsValue.empty] }

/-- `create(payload)` (src/src/pinia.ts lines 123-137): one
`apiClient.post(endpoint, payload)`; if it succeeds, `await this.fetchAll()`
(unparameterized, so `params = {}`) runs with outcome `listRes` — `fetchAll`
catches its own failures internally, so this await never throws — and the
created entity is returned.  If the post fails, the catch block sets `error`
and returns `undefined` without invoking `fetchAll`. -/
def create {T : Type} (endpoint : String) (postRes : ApiResult T)
    (listRes : ApiResult (ListResponse T)) (s : GenericState T) :
    ActionOutcome T (Option T) :=
  let s1 := startAction s
  match postRes with
  | .ok createdData =>
    let refresh := fetchAll endpoint JsValue.empty listRes s1
    { state := finishAction refresh.state
      result := some createdData
      calls := ApiCall.post endpoint :: refresh.calls }
  | .err e =>
    { state := finishAction { s1 with error := some (normalizeCaught e) }
      result := Option.none
      calls := [ApiCall.post endpoint] }

/-- `update(id, payload)` (src/src/pinia.ts lines 138-152): exactly the
`create` shape with `apiClient.put(endpoint/id, payload)`. -/
def update {T : Type} (endpoint id : String) (putRes : ApiResult T)
    (listRes : ApiResult (ListResponse T)) (s : GenericState T) :
    ActionOutcome T (Option T) :=
  let s1 := startAction s
  match putRes with
  | .ok updatedData =>
    let refresh := fetchAll endpoint JsValue.empty listRes s1
    { state := finishAction refresh.state
      result := some updatedData
      calls := ApiCall.put (endpoint ++ "/" ++ id) :: refresh.calls }
  | .err e =>
    { state := finishAction { s1 with error := some (normalizeCaught e) }
      result := Option.none
      calls := [ApiCall.put (endpoint ++ "/" ++ id)] }

/-- `remove(id)` (src/src/pinia.ts lines 153-164): one
`apiClient.delete(endpoint/id)` whose response value is discarded; on
success the same internal `fetchAll` refresh, on failure `error` is set and
no refresh happens.  Resolves `void`. -/
def remove {T : Type} (endpoint id : String) (delRes : ApiResult Unit)
    (listRes : ApiResult (ListResponse T)) (s : GenericState T) :
    ActionOutcome T Unit :=
  let s1 := startAction s
  match delRes with
  | .ok _ =>
    let refresh := fetchAll endpoint JsValue.empty listRes s1
    { state := finishAction refresh.state
      result := ()
      calls := ApiCall.delete (endpoint ++ "/" ++ id) :: refresh.calls }
  | .err e =>
    { state := finishAction { s1 with error := some (normalizeCaught e) }
      result := ()
      calls := [ApiCall.delete (endpoint ++ "/" ++ id)] }

/-- The caller-supplied `StoreExtensions` bundle, tracked by the names of
the members it contributes (their bodies are opaque to the factory: it only
spreads them into the options object). -/
structure StoreExtensions where
  stateKeys : List String := []
  getterNames : List String := []
  actionNames : List String := []
deriving DecidableEq, Repr

/-- The five base actions defined in `storeOptions.actions`
(src/src/pinia.ts lines 84-167), in source order. -/
def baseActionNames : List String :=
  ["fetchAll", "fetchOne", "create", "update", "remove"]

/-- Key set of a JS object literal `{...base keys..., ...ext}`: base keys in
order, then the extension keys that are new (an extension key colliding with
a base key shadows the base member in place and adds no new key). -/
def mergeKeys (base ext : List String) : List String :=
  base ++ ext.filter (fun n => decide (n ∉ base))

/-- The store definition produced by `createGenericStore`: id, endpoint,
initial state and the member names installed on the options object. -/
structure StoreDef (T : Type) where
  storeId : String
  endpoint : String
  initState : GenericState T
  actionNames : List String
  getterNames : List String
deriving DecidableEq, Repr

/-- `createGenericStore(storeId, endpoint, extendStore?)`
(src/src/pinia.ts lines 44-182).  The signature has exactly these three
parameters — there is no options/action-inclusion parameter, so a fourth
argument passed by a JS caller is ignored — and the actions object always
contains all five base actions, followed by the spread extension actions. -/
def createGenericStore (T : Type) (storeId endpoint : String)
    (extendStore : Option StoreExtensions) : StoreDef T :=
  let extensions := extendStore.getD {}
  { storeId := storeId
    endpoint := endpoint
    initState := initialState T
    actionNames := mergeKeys baseActionNames extensions.actionNames
    getterNames := extensions.getterNames }

/-! ## Theorems for the claims -/

/-- Helper: a key of the base object survives an object spread. -/
theorem mem_mergeKeys_of_mem_base {a : String} {base ext : List String}
    (h : a ∈ base) : a ∈ mergeKeys base ext :=
  List.mem_append_left _ h

/-- C1: the claim asserts that an action-inclusion set passed to the
factory controls which base actions are installed.  `createGenericStore`
has no such parameter (its signature is `(storeId, endpoint, extendStore?)`,
so a fourth `options` argument from a JS caller is silently ignored), and
the actions object unconditionally contains all five base actions: for
every way the factory can be called, each base action is installed, and at
the README's own example call `createGenericStore('users', '/users')` (with
the documented `{actions: ['fetchAll','fetchOne']}` fourth argument
dropped, as JS does) the installed action list is exactly all five. -/
theorem c1_factory_installs_all_base_actions (T : Type) (storeId endpoint : String)
    (ext : Option StoreExtensions) :
    "fetchAll" ∈ (createGenericStore T storeId endpoint ext).actionNames
    ∧ "fetchOne" ∈ (createGenericStore T storeId endpoint ext).actionNames
    ∧ "create" ∈ (createGenericStore T storeId endpoint ext).actionNames
    ∧ "update" ∈ (createGenericStore T storeId endpoint ext).actionNames
    ∧ "remove" ∈ (createGenericStore T storeId endpoint ext).actionNames
    ∧ (createGenericStore T "users" "/users" Option.none).actionNames
        = ["fetchAll", "fetchOne", "create", "update", "remove"] :=
  ⟨mem_mergeKeys_of_mem_base (by decide), mem_mergeKeys_of_mem_base (by decide),
   mem_mergeKeys_of_mem_base (by decide), mem_mergeKeys_of_mem_base (by decide),
   mem_mergeKeys_of_mem_base (by decide), rfl⟩

/-- C4: `handleError` classification as observed through both wrapper
paths (`request` and `postFile`): a failure carrying a response throws the
response body verbatim (independently of status and headers, which are
discarded); a failure carrying only a request throws an `Error` with the
fixed message `"No response from server"`; any other failure throws an
`Error` with message `"Request failed: "` followed by the original
message. -/
theorem c4_handleError_classification (inst : AxiosInstance) (method url : String)
    (d : JsValue) (status status' : Nat) (headers headers' : List (String × String))
    (body : JsValue) (msg : String) (formData : JsValue) :
    (request (some inst) method url d (.err (.withResponse status headers body))).1
      = .thrown (.rawValue body)
    ∧ (request (some inst) method url d (.err (.withResponse status headers body))).1
      = (request (some inst) method url d (.err (.withResponse status' headers' body))).1
    ∧ (request (some inst) method url d (.err (.withRequest msg))).1
      = .thrown (.errorInst "No response from server")
    ∧ (request (some inst) method url d (.err (.setup msg))).1
      = .thrown (.errorInst ("Request failed: " ++ msg))
    ∧ (postFile (some inst) url formData (.err (.withResponse status headers body))).1
      = .thrown (.rawValue body)
    ∧ (postFile (some inst) url formData (.err (.withRequest msg))).1
      = .thrown (.errorInst "No response from server")
    ∧ (postFile (some inst) url formData (.err (.setup msg))).1
      = .thrown (.errorInst ("Request failed: " ++ msg)) :=
  ⟨rfl, rfl, rfl, rfl, rfl, rfl, rfl⟩

/-- C5: every wrapper verb invoked while `axiosInstance` is undefined
rejects with exactly the message
`"apiClient not initialized. Call initApiClient(config) first."` and issues
no transport request at all (empty request list), whatever the transport
would have answered. -/
theorem c5_uninited_rejects_before_transport (url : String)
    (params data formData : JsValue) (outcome : TransportOutcome) :
    apiGet Option.none url params outcome
      = (.thrown (.errorInst "apiClient not initialized. Call initApiClient(config) first."), [])
    ∧ apiPost Option.none url data outcome
      = (.thrown (.errorInst "apiClient not initialized. Call initApiClient(config) first."), [])
    ∧ apiPut Option.none url data outcome
      = (.thrown (.errorInst "apiClient not initialized. Call initApiClient(config) first."), [])
    ∧ apiDelete Option.none url params outcome
      = (.thrown (.errorInst "apiClient not initialized. Call initApiClient(config) first."), [])
    ∧ postFile Option.none url formData outcome
      = (.thrown (.errorInst "apiClient not initialized. Call initApiClient(config) first."), []) :=
  ⟨rfl, rfl, rfl, rfl, rfl⟩

/-- C9: a second `initApiClient` call replaces the transport instance
wholesale: afterwards the stored instance is exactly the one created from
the second config, and it is independent of the first config and of any
earlier instance (no fields or interceptors are merged or retained); its
base URL, headers and interceptor registrations are functions of the second
config alone. -/
theorem c9_second_init_governs (cfg1 cfg1' cfg2 : ApiClientConfig)
    (s s' : Option AxiosInstance) :
    initApiClient cfg2 (initApiClient cfg1 s) = some (createInstance cfg2)
    ∧ initApiClient cfg2 (initApiClient cfg1 s)
        = initApiClient cfg2 (initApiClient cfg1' s')
    ∧ (createInstance cfg2).baseURL = cfg2.baseURL
    ∧ (createInstance cfg2).headers
        = mergeHeaders [("Content-Type", "application/json")] cfg2.headers
    ∧ (createInstance cfg2).reqInterceptors
        = (ensureArray cfg2.requestInterceptors).map
            (fun f => (f, (ensureArray cfg2.requestInterceptorErrors).head?)) :=
  ⟨rfl, rfl, rfl, rfl, rfl⟩

/-- A concrete server-shaped error body, as thrown verbatim by the wrapper
for a server-responded failure. -/
def serverErrorBody : JsValue := .object [("message", .str "Not Found")]

/-- C2 counterexample: the claim says `fetchOne` stores a raw thrown value
(such as a server-shaped error object) into the error state as-is.  It does
not: on catching the raw body `{message: "Not Found"}`, `fetchOne` stores
`new Error(String(err))`, i.e. an `Error` whose message is
`"[object Object]"`, not the raw value. -/
theorem c2_counterexample_fetchOne_wraps_raw :
    (fetchOne "/users" "1" (ApiResult.err (.rawValue serverErrorBody))
        (initialState JsValue)).state.error
      = some (.errorInst "[object Object]")
    ∧ (fetchOne "/users" "1" (ApiResult.err (.rawValue serverErrorBody))
        (initialState JsValue)).state.error
      ≠ some (.rawValue serverErrorBody) := by
  exact ⟨rfl, by decide⟩

/-- C2 (amended): all five base actions share the identical catch block
`err instanceof Error ? err : new Error(String(err))`, so every one of
them — not only `fetchAll` — normalizes a caught non-`Error` value into an
`Error` instance; no base action stores the raw thrown value. -/
theorem c2_amended_all_actions_normalize (T : Type) (endpoint id : String)
    (params : JsValue) (e : Caught) (listRes : ApiResult (ListResponse T))
    (s : GenericState T) :
    (fetchAll endpoint params (.err e) s).state.error = some (normalizeCaught e)
    ∧ (fetchOne endpoint id (ApiResult.err e) s).state.error = some (normalizeCaught e)
    ∧ (create endpoint (ApiResult.err e) listRes s).state.error = some (normalizeCaught e)
    ∧ (update endpoint id (ApiResult.err e) listRes s).state.error = some (normalizeCaught e)
    ∧ (remove endpoint id (ApiResult.err e) listRes s).state.error = some (normalizeCaught e)
    ∧ (∀ v : JsValue, normalizeCaught (.rawValue v) = .errorInst (jsStringOf v))
    ∧ (∀ e' : Caught, ∃ m, normalizeCaught e' = .errorInst m) := by
  refine ⟨rfl, rfl, rfl, rfl, rfl, fun v => rfl, fun e' => ?_⟩
  cases e' with
  | errorInst m => exact ⟨m, rfl⟩
  | rawValue v => exact ⟨jsStringOf v, rfl⟩

/-- C3: on a successful `fetchAll`, `items` is replaced wholesale with the
response's `objects` (defaulted to `[]`), `meta` is replaced wholesale with
`{currentPage: current_page (default 1), totalPages: num_pages (default 1),
totalCount: total_count ?? objects.length}` — both independent of the prior
state — and for every response omitting `total_count`, the resulting
`meta.totalCount` equals the resulting `items.length`. -/
theorem c3_fetchAll_success_defaults (T : Type) (endpoint : String) (params : JsValue)
    (r : ListResponse T) (s : GenericState T)
    (os : Option (List T)) (cp np : Option Int) :
    (fetchAll endpoint params (.ok r) s).state.items = r.objects.getD []
    ∧ (fetchAll endpoint params (.ok r) s).state.meta
        = { currentPage := r.current_page.getD 1, totalPages := r.num_pages.getD 1,
            totalCount := r.total_count.getD (r.objects.getD []).length }
    ∧ (fetchAll endpoint params
          (.ok { objects := os, current_page := cp, num_pages := np,
                 total_count := Option.none }) s).state.meta.totalCount
        = ((fetchAll endpoint params
          (.ok { objects := os, current_page := cp, num_pages := np,
                 total_count := Option.none }) s).state.items.length : Int) :=
  ⟨rfl, rfl, rfl⟩

/-- C6: when a base action's HTTP call fails, `items`, `item` and `meta`
are left exactly as they were (only `error` is set to the normalized caught
value); and on success each updated field is replaced wholesale:
`fetchAll`'s new `items`/`meta` and `fetchOne`'s new `item` are determined
by the response alone, independent of the prior state. -/
theorem c6_failure_frame_and_wholesale_success (T : Type) (endpoint id : String)
    (params : JsValue) (e : Caught) (listRes : ApiResult (ListResponse T))
    (r : ListResponse T) (data : T) (s : GenericState T) :
    ((fetchAll endpoint params (.err e) s).state.items = s.items
      ∧ (fetchAll endpoint params (.err e) s).state.item = s.item
      ∧ (fetchAll endpoint params (.err e) s).state.meta = s.meta)
    ∧ ((fetchOne endpoint id (ApiResult.err e) s).state.items = s.items
      ∧ (fetchOne endpoint id (ApiResult.err e) s).state.item = s.item
      ∧ (fetchOne endpoint id (ApiResult.err e) s).state.meta = s.meta)
    ∧ ((create endpoint (ApiResult.err e) listRes s).state.items = s.items
      ∧ (create endpoint (ApiResult.err e) listRes s).state.item = s.item
      ∧ (create endpoint (ApiResult.err e) listRes s).state.meta = s.meta)
    ∧ ((update endpoint id (ApiResult.err e) listRes s).state.items = s.items
      ∧ (update endpoint id (ApiResult.err e) listRes s).state.item = s.item
      ∧ (update endpoint id (ApiResult.err e) listRes s).state.meta = s.meta)
    ∧ ((remove endpoint id (ApiResult.err e) listRes s).state.items = s.items
      ∧ (remove endpoint id (ApiResult.err e) listRes s).state.item = s.item
      ∧ (remove endpoint id (ApiResult.err e) listRes s).state.meta = s.meta)
    ∧ (fetchAll endpoint params (.ok r) s).state.items = r.objects.getD []
    ∧ (fetchAll endpoint params (.ok r) s).state.meta
        = { currentPage := r.current_page.getD 1, totalPages := r.num_pages.getD 1,
            totalCount := r.total_count.getD (r.objects.getD []).length }
    ∧ (fetchOne endpoint id (ApiResult.ok data) s).state.item = some data :=
  ⟨⟨rfl, rfl, rfl⟩, ⟨rfl, rfl, rfl⟩, ⟨rfl, rfl, rfl⟩, ⟨rfl, rfl, rfl⟩,
   ⟨rfl, rfl, rfl⟩, rfl, rfl, rfl⟩

/-- C7: when the POST of `create` fails, `create` resolves with `undefined`,
sets the error state, and issues exactly its one POST request — in
particular no list refresh (`fetchAll`) request is made; likewise `update`
on a failed PUT and `remove` on a failed DELETE. -/
theorem c7_failed_mutation_no_refresh (T : Type) (endpoint id : String)
    (e : Caught) (listRes : ApiResult (ListResponse T)) (s : GenericState T) :
    (create endpoint (ApiResult.err e) listRes s).result = (Option.none : Option T)
    ∧ (create endpoint (ApiResult.err e) listRes s).state.error
        = some (normalizeCaught e)
    ∧ (create endpoint (ApiResult.err e) listRes s).calls = [ApiCall.post endpoint]
    ∧ (update endpoint id (ApiResult.err e) listRes s).result = (Option.none : Option T)
    ∧ (update endpoint id (ApiResult.err e) listRes s).state.error
        = some (normalizeCaught e)
    ∧ (update endpoint id (ApiResult.err e) listRes s).calls
        = [ApiCall.put (endpoint ++ "/" ++ id)]
    ∧ (remove endpoint id (ApiResult.err e) listRes s).state.error
        = some (normalizeCaught e)
    ∧ (remove endpoint id (ApiResult.err e) listRes s).calls
        = [ApiCall.delete (endpoint ++ "/" ++ id)] :=
  ⟨rfl, rfl, rfl, rfl, rfl, rfl, rfl, rfl⟩

/-- C8: every base action overwrites `loading` with `true` and `error` with
`null` before anything else — so its entire outcome is insensitive to the
incoming values of `loading` and `error` — and its `finally` block leaves
`loading = false` after completion, whatever the outcome of its HTTP
call(s). -/
theorem c8_loading_lifecycle (T : Type) (endpoint id : String) (params : JsValue)
    (listRes : ApiResult (ListResponse T)) (oneRes postRes putRes : ApiResult T)
    (delRes : ApiResult Unit) (s : GenericState T) (b : Bool) (e0 : Option Caught) :
    (fetchAll endpoint params listRes s).state.loading = false
    ∧ (fetchOne endpoint id oneRes s).state.loading = false
    ∧ (create endpoint postRes listRes s).state.loading = false
    ∧ (update endpoint id putRes listRes s).state.loading = false
    ∧ (remove endpoint id delRes listRes s).state.loading = false
    ∧ fetchAll endpoint params listRes { s with loading := b, error := e0 }
        = fetchAll endpoint params listRes s
    ∧ fetchOne endpoint id oneRes { s with loading := b, error := e0 }
        = fetchOne endpoint id oneRes s
    ∧ create endpoint postRes listRes { s with loading := b, error := e0 }
        = create endpoint postRes listRes s
    ∧ update endpoint id putRes listRes { s with loading := b, error := e0 }
        = update endpoint id putRes listRes s
    ∧ remove endpoint id delRes listRes { s with loading := b, error := e0 }
        = remove endpoint id delRes listRes s := by
  obtain ⟨items, item, loading, error, meta⟩ := s
  cases listRes <;> cases oneRes <;> cases postRes <;> cases putRes <;> cases delRes <;>
    exact ⟨rfl, rfl, rfl, rfl, rfl, rfl, rfl, rfl, rfl, rfl⟩

/-- C10: when the POST (or PUT) succeeds but the chained `fetchAll` refresh
fails, `create` (or `update`) still resolves with the created (updated)
entity rather than `undefined`: the refresh failure is caught inside
`fetchAll` itself — which stores it into the error state — and never
reaches `create`'s or `update`'s catch block (in this model no action ever
rejects: each is a total function on its call outcomes). -/
theorem c10_refresh_failure_still_resolves (T : Type) (endpoint id : String)
    (d : T) (e : Caught) (s : GenericState T) :
    (create endpoint (ApiResult.ok d) (ApiResult.err e) s).result = some d
    ∧ (create endpoint (ApiResult.ok d) (ApiResult.err e) s).state.error
        = some (normalizeCaught e)
    ∧ (create endpoint (ApiResult.ok d) (ApiResult.err e) s).state.loading = false
    ∧ (update endpoint id (ApiResult.ok d) (ApiResult.err e) s).result = some d
    ∧ (update endpoint id (ApiResult.ok d) (ApiResult.err e) s).state.error
        = some (normalizeCaught e)
    ∧ (update endpoint id (ApiResult.ok d) (ApiResult.err e) s).state.loading = false :=
  ⟨rfl, rfl, rfl, rfl, rfl, rfl⟩

end PiniaApiClient
